import Mathlib

/-!
Verification development for the AI-Observability-Agent repository.

This file gives a shallow embedding, in Lean 4, of the incident lifecycle and
action-dispatch workflow of the repository: the data model (`models/incident.py`),
the signal detector (`services/signal_detector.py`), the webhook ingress and
incident pipeline (`main.py`), the analysis merge (`services/ai_analyzer.py`),
the action executor (`services/action_executor.py`) and the PR-comment recording
path of `services/incident_manager.py`.

Python floats are modelled as rationals (`ℚ`), datetimes as a record of calendar
fields plus an optional UTC offset, dictionaries as association lists, and the
outcomes of external HTTP calls / random engines as explicit environment inputs.
Exceptions are modelled with `Except` or explicit boolean raise flags at the
points where the source has a `try`/`except`.
-/

namespace AIObs

set_option maxRecDepth 4096

/-- Model of a parsed `datetime.datetime` value: calendar fields plus an optional
UTC offset in minutes (`None` for a naive datetime). -/
structure PyDateTime where
  year : Nat
  month : Nat
  day : Nat
  hour : Nat
  minute : Nat
  second : Nat
  utcOffsetMinutes : Option Int
deriving DecidableEq, Repr

/-- Value of a decimal digit character, if it is one. -/
def digitVal (c : Char) : Option Nat :=
  if c.isDigit then some (c.toNat - 48) else none

/-- Two decimal digits as a number. -/
def twoDigits (a b : Char) : Option Nat := do
  let x ← digitVal a
  let y ← digitVal b
  pure (x * 10 + y)

/-- Four decimal digits as a number. -/
def fourDigits (a b c d : Char) : Option Nat := do
  let x ← twoDigits a b
  let y ← twoDigits c d
  pure (x * 100 + y)

/-- Model of `datetime.fromisoformat` on the shapes this code base feeds it:
`YYYY-MM-DD<sep>HH:MM:SS` with an optional `±HH:MM` offset (Python 3.11+ accepts
any single separator character between date and time; fractional seconds and
other extended forms are outside the inputs this repository produces and are
rejected here). Field ranges are validated as Python does. -/
def parseIsoChars : List Char → Option PyDateTime
  | y1 :: y2 :: y3 :: y4 :: '-' :: mo1 :: mo2 :: '-' :: da1 :: da2 :: _sep ::
      h1 :: h2 :: ':' :: mi1 :: mi2 :: ':' :: se1 :: se2 :: rest => do
    let y ← fourDigits y1 y2 y3 y4
    let mo ← twoDigits mo1 mo2
    let da ← twoDigits da1 da2
    let h ← twoDigits h1 h2
    let mi ← twoDigits mi1 mi2
    let se ← twoDigits se1 se2
    if mo < 1 || mo > 12 || da < 1 || da > 31 || h > 23 || mi > 59 || se > 59 then
      none
    else
      match rest with
      | [] => some ⟨y, mo, da, h, mi, se, none⟩
      | '+' :: o1 :: o2 :: ':' :: o3 :: o4 :: [] => do
        let oh ← twoDigits o1 o2
        let om ← twoDigits o3 o4
        some ⟨y, mo, da, h, mi, se, some ((oh : Int) * 60 + (om : Int))⟩
      | '-' :: o1 :: o2 :: ':' :: o3 :: o4 :: [] => do
        let oh ← twoDigits o1 o2
        let om ← twoDigits o3 o4
        some ⟨y, mo, da, h, mi, se, some (-((oh : Int) * 60 + (om : Int)))⟩
      | _ => none
  | _ => none

/-- Model of `datetime.fromisoformat` on strings. -/
def fromisoformat (s : String) : Option PyDateTime :=
  parseIsoChars s.data

/-- The `Z`-suffix normalisation the code performs before calling
`fromisoformat`: `if time_str.endswith('Z'): time_str = time_str[:-1] + '+00:00'`. -/
def normalizeZ (s : String) : String :=
  if s.endsWith "Z" then s.dropRight 1 ++ "+00:00" else s

/-- Model of a Python JSON-ish value stored in `raw_data` dictionaries. -/
inductive RVal where
  | s (v : String)
  | n (v : Int)
  | b (v : Bool)
  | arr (items : List RVal)
  | obj (fields : List (String × RVal))

/-- A Python dict, modelled as an association list (insertion order preserved,
keys unique by construction in all the payloads considered here). -/
abbrev RawData := List (String × RVal)

mutual

/-- Model of Python `repr` on an `RVal`, as used inside container rendering. -/
def RVal.render : RVal → String
  | .s v => "\x27" ++ v ++ "\x27"
  | .n v => toString v
  | .b v => if v then "True" else "False"
  | .arr items => "[" ++ renderItems items ++ "]"
  | .obj fields => "\x7b" ++ renderFields fields ++ "\x7d"

/-- Comma-separated rendering of list items. -/
def renderItems : List RVal → String
  | [] => ""
  | [v] => RVal.render v
  | v :: rest => RVal.render v ++ ", " ++ renderItems rest

/-- Comma-separated rendering of dict fields. -/
def renderFields : List (String × RVal) → String
  | [] => ""
  | [(k, v)] => "\x27" ++ k ++ "\x27: " ++ RVal.render v
  | (k, v) :: rest => "\x27" ++ k ++ "\x27: " ++ RVal.render v ++ ", " ++ renderFields rest

end

/-- Model of Python `str` on an `RVal` (top-level `str()`: no quotes on strings). -/
def RVal.str : RVal → String
  | .s v => v
  | v => v.render

/-- Model of Python `str` on a whole dict, as in `str(incident.raw_data)`. -/
def renderDict (raw : RawData) : String :=
  "\x7b" ++ renderFields raw ++ "\x7d"

/-- Python `str(x)` for an optional value, where a missing key gave `None`. -/
def pyStrOpt : Option RVal → String
  | some v => v.str
  | none => "None"

/-- Whether the first character list leads (starts) the second. -/
def leadsList : List Char → List Char → Bool
  | [], _ => true
  | _ :: _, [] => false
  | p :: ps, c :: cs => p == c && leadsList ps cs

/-- Whether the first character list occurs contiguously inside the second. -/
def occursInList : List Char → List Char → Bool
  | pat, [] => pat.isEmpty
  | pat, c :: cs => leadsList pat (c :: cs) || occursInList pat cs

/-- Substring containment, Python's `pat in s`. -/
def containsSub (pat s : String) : Bool :=
  occursInList pat.data s.data

/-- Python `any(p in s for p in pats)`. -/
def anyPatternIn (pats : List String) (s : String) : Bool :=
  pats.any (fun p => containsSub p s)

/-- Python `dict.get(k, "").lower()`: a missing key gives the lowered default
`""`; a present non-string value raises `AttributeError` on `.lower()`
(`analyze_git_event` has no `try`, so the exception escapes — modelled as
`Except.error`). -/
def getLowerE (raw : RawData) (k : String) : Except Unit String :=
  match raw.lookup k with
  | none => .ok ""
  | some (.s v) => .ok v.toLower
  | some _ => .error ()

/-- The `IncidentSeverity` enum of `models/incident.py`. -/
inductive IncidentSeverity where
  | low
  | medium
  | high
  | critical
deriving DecidableEq, Repr

/-- String value of a severity member. -/
def IncidentSeverity.value : IncidentSeverity → String
  | .low => "low"
  | .medium => "medium"
  | .high => "high"
  | .critical => "critical"

/-- The `IncidentStatus` enum of `models/incident.py`. -/
inductive IncidentStatus where
  | open_
  | in_progress
  | resolved
  | closed
  | failed
deriving DecidableEq, Repr

/-- String value of a status member. -/
def IncidentStatus.value : IncidentStatus → String
  | .open_ => "open"
  | .in_progress => "in_progress"
  | .resolved => "resolved"
  | .closed => "closed"
  | .failed => "failed"

/-- The `IncidentStatus(...)` constructor on a string, `None` on `ValueError`. -/
def IncidentStatus.ofString : String → Option IncidentStatus
  | "open" => some .open_
  | "in_progress" => some .in_progress
  | "resolved" => some .resolved
  | "closed" => some .closed
  | "failed" => some .failed
  | _ => none

/-- The `ActionTaken` pydantic model (the `executed_at` default timestamp is
omitted: no theorem below inspects it). `result` is modelled as an optional
association list of string-rendered values. -/
structure ActionTaken where
  action_type : String
  description : String
  status : String
  details : Option String := none
  result : Option (List (String × String)) := none
deriving DecidableEq, Repr

/-- An entry of an incident's `actions_taken` list. The code base appends two
different shapes: proper `ActionTaken` model instances (action_executor path)
and plain Python dicts (incident_manager / github_monitor paths). -/
inductive ActionEntry where
  | taken (a : ActionTaken)
  | dict (fields : List (String × String))
deriving DecidableEq, Repr

/-- The `status` field of an entry, if it has one. A plain dict entry has a
`status` only when the dict carries that key. -/
def ActionEntry.statusField : ActionEntry → Option String
  | .taken a => some a.status
  | .dict fields => fields.lookup "status"

/-- The `success` field of a dict entry, if present. -/
def ActionEntry.successField : ActionEntry → Option String
  | .taken _ => none
  | .dict fields => fields.lookup "success"

/-- The `Signal` pydantic model. -/
structure Signal where
  source : String
  event_type : String
  description : String
  severity : ℚ
  is_anomaly : Bool
  raw_data : RawData

/-- The `Incident` pydantic model (fields not touched by any code under study,
such as `tags` and `assignee`, are omitted). -/
structure Incident where
  id : String
  title : String
  description : String
  severity : IncidentSeverity
  status : IncidentStatus
  source : String
  raw_data : RawData
  detected_at : PyDateTime
  resolved_at : Option PyDateTime := none
  root_cause : Option String := none
  confidence_score : Option ℚ := none
  suggested_actions : List String := []
  ml_insights : List String := []
  copado_insights : List String := []
  quantum_insights : List String := []
  actions_taken : List ActionEntry := []

/-- The in-memory `incidents: Dict[str, Incident]` store of `main.py`,
modelled as an insertion-ordered association list (Python dict semantics). -/
abbrev IncidentStore := List (String × Incident)

/-- Python dict lookup `incidents.get(id)` / membership `id in incidents`. -/
def storeLookup : IncidentStore → String → Option Incident
  | [], _ => none
  | (k, v) :: rest, id => if k = id then some v else storeLookup rest id

/-- Python dict assignment `incidents[id] = inc`: overwrite in place if the key
exists, else append. -/
def storeInsert : IncidentStore → String → Incident → IncidentStore
  | [], id, inc => [(id, inc)]
  | (k, v) :: rest, id, inc =>
    if k = id then (id, inc) :: rest else (k, v) :: storeInsert rest id inc

/-- The `WebhookPayload` pydantic model (timestamp field unused by the handlers
studied here). -/
structure WebhookPayload where
  source : String
  event_type : String
  data : RawData

/-! ## Signal detector (`services/signal_detector.py`) -/

/-- The `severity_map` of `SignalDetector.analyze_copado_event`. -/
def severity_map : List (String × ℚ) :=
  [("deployment_failed", 0.9), ("test_failed", 0.7),
   ("build_failed", 0.8), ("pipeline_failed", 0.8)]

/-- `SignalDetector.analyze_copado_event`: Copado CI/CD events are always
anomalous; severity comes from `severity_map` with default `0.7`. -/
def analyze_copado_event (payload : WebhookPayload) : Signal :=
  let event_data := payload.data
  let event_type := payload.event_type
  let severity := (severity_map.lookup event_type).getD 0.7
  let description := "Copado " ++ event_type.replace "_" " "
  let description :=
    match event_data.lookup "error_message" with
    | some v => description ++ ": " ++ v.str
    | none => description
  { source := "copado", event_type := event_type, description := description,
    severity := severity, is_anomaly := true, raw_data := event_data }

/-- The commit loop of `analyze_git_event` on a `push` event: the first commit
whose lowercased message contains one of the risky patterns (returning the
original message for the description). A non-dict commit entry raises
`AttributeError` on `commit.get(...)`, and a non-string message raises on
`.lower()`; neither is caught in `analyze_git_event`, so both are
`Except.error`. -/
def scanCommits : List RVal → Except Unit (Option (Option RVal))
  | [] => .ok none
  | c :: cs =>
    match c with
    | .obj fields =>
      match getLowerE fields "message" with
      | .error e => .error e
      | .ok message =>
        if anyPatternIn ["fix", "hotfix", "urgent", "critical"] message then
          .ok (some (fields.lookup "message"))
        else scanCommits cs
    | _ => .error ()

/-- The `event_data.get("commits", [])` value as the list the `for` loop walks:
a missing key defaults to `[]`; a list iterates its items; an empty dict or
empty string iterates to nothing; every other value raises in or before the
loop body (non-iterables raise `TypeError`, and iterating a non-empty dict or
string yields strings whose `.get` raises `AttributeError`). -/
def commitsListE : Option RVal → Except Unit (List RVal)
  | none => .ok []
  | some (.arr items) => .ok items
  | some (.obj []) => .ok []
  | some (.s "") => .ok []
  | some _ => .error ()

/-- `SignalDetector.analyze_git_event`: keyword matching on push commits,
pull-request titles and hotfix commits. The function has no `try`, so the
`AttributeError`/`TypeError` raised on malformed `commits`/`pull_request`
values escapes to the caller (`Except.error`). -/
def analyze_git_event (payload : WebhookPayload) : Except Unit Signal :=
  let event_data := payload.data
  let event_type := payload.event_type
  let base : Bool × ℚ × String := (false, 0, "Git " ++ event_type ++ " event")
  let resE : Except Unit (Bool × ℚ × String) :=
    if event_type = "push" then
      match commitsListE (event_data.lookup "commits") with
      | .error e => .error e
      | .ok commits =>
        match scanCommits commits with
        | .error e => .error e
        | .ok (some msg) => .ok (true, 0.6, "Urgent commit detected: " ++ pyStrOpt msg)
        | .ok none => .ok base
    else if event_type = "pull_request" then
      let checkTitle : RawData → Except Unit (Bool × ℚ × String) := fun pr_data =>
        match getLowerE pr_data "title" with
        | .error e => .error e
        | .ok title =>
          if anyPatternIn ["fix", "bug", "critical", "hotfix"] title then
            .ok (true, 0.5, "Bug fix PR detected: " ++ pyStrOpt (pr_data.lookup "title"))
          else .ok base
      match event_data.lookup "pull_request" with
      | none => checkTitle []
      | some (.obj pr_data) => checkTitle pr_data
      | some _ => .error ()
    else if event_type = "hotfix_commit" then
      let commit_message :=
        match event_data.lookup "commit_message" with
        | some v => v.str
        | none => ""
      .ok (true, 0.8, "Critical hotfix commit: " ++ commit_message)
    else .ok base
  resE.map (fun res =>
    { source := "git", event_type := event_type, description := res.2.2,
      severity := res.2.1, is_anomaly := res.1, raw_data := event_data })

/-! ## Incident creation (`main.py`, `create_incident_from_signal`) -/

/-- The ordered `timestamp_fields` list of `create_incident_from_signal`. -/
def timestamp_fields : List String :=
  ["timestamp", "detected_at", "last_success", "deployment_time"]

/-- One pass of the timestamp-scanning loop: the first field in the given order
whose value is a string that parses (after `Z` normalisation); a present
non-string or unparsable value falls through to the next field. -/
def scanTimestampFields (raw : RawData) : List String → Option PyDateTime
  | [] => none
  | f :: fs =>
    match raw.lookup f with
    | some (.s v) =>
      match fromisoformat (normalizeZ v) with
      | some dt => some dt
      | none => scanTimestampFields raw fs
    | some _ => scanTimestampFields raw fs
    | none => scanTimestampFields raw fs

/-- The nested scan over `raw_data['data']` (run unconditionally after the
top-level scan, so a nested hit overrides a top-level one). The membership test
`field in data` and the indexing `data[field]` run OUTSIDE the `try` (which
only catches `ValueError`/`AttributeError`), so a non-iterable `data` value
raises an uncaught `TypeError` at once, and a string or list `data` raises when
some field name occurs in it (substring of a string, element of a list); these
escapes are `Except.error`. -/
def nestedScanE (raw : RawData) : Except Unit (Option PyDateTime) :=
  match raw.lookup "data" with
  | none => .ok none
  | some (.obj d) => .ok (scanTimestampFields d timestamp_fields)
  | some (.s v) =>
    if anyPatternIn timestamp_fields v then .error () else .ok none
  | some (.arr items) =>
    if timestamp_fields.any
        (fun f => items.any (fun v => match v with | .s s => s = f | _ => false)) then
      .error ()
    else .ok none
  | some _ => .error ()

/-- The complete `detected_at` extraction of `create_incident_from_signal`:
default wall-clock `now`, overwritten by the first parsing top-level field,
overwritten again by the first parsing nested field; the nested scan's uncaught
`TypeError` (raised after the top-level scan, whatever it produced) aborts the
extraction — and with it incident creation. -/
def extract_detected_at (now : PyDateTime) (raw : RawData) :
    Except Unit PyDateTime :=
  match nestedScanE raw with
  | .error e => .error e
  | .ok (some dt) => .ok dt
  | .ok none => .ok ((scanTimestampFields raw timestamp_fields).getD now)

/-- Python `str.title()` restricted to the single-word source names this code
passes it (`git`, `copado`, `salesforce`). -/
def strTitle (s : String) : String :=
  match s.data with
  | [] => s
  | c :: rest => String.mk (c.toUpper :: rest.map Char.toLower)

/-- The `Incident(...)` record built by `create_incident_from_signal` once a
`detected_at` value is in hand. -/
def incidentRecord (id : String) (signal : Signal) (source : String)
    (detected_at : PyDateTime) : Incident :=
  { id := id,
    title := strTitle source ++ " Issue Detected",
    description := signal.description,
    severity := if signal.severity > 0.7 then .high else .medium,
    status := .open_,
    source := source,
    raw_data := signal.raw_data,
    detected_at := detected_at }

/-- `create_incident_from_signal` of `main.py` (the generated UUID is passed in
as `id`, the wall-clock fallback as `now`): fallible, because the nested
timestamp scan can raise an uncaught `TypeError` before the `Incident` is built
or stored. -/
def create_incident_from_signal (id : String) (signal : Signal) (source : String)
    (now : PyDateTime) : Except Unit Incident :=
  (extract_detected_at now signal.raw_data).map (incidentRecord id signal source)

/-! ## AI analyzer (`services/ai_analyzer.py`) -/

/-- The `AIAnalysis` pydantic model (fields with fixed defaults that no studied
code reads are omitted). -/
structure AIAnalysis where
  root_cause : String
  confidence : ℚ
  suggested_actions : List String
  related_incidents : List String := []
  analysis_duration : ℚ := 0
deriving DecidableEq, Repr

/-- Order-preserving de-duplication, Python's `list(dict.fromkeys(xs))`,
written with an accumulator of already-seen keys. -/
def dedupSeen : List String → List String → List String
  | [], _ => []
  | x :: xs, seen =>
    if x ∈ seen then dedupSeen xs seen else x :: dedupSeen xs (x :: seen)

/-- `list(dict.fromkeys(xs))`: duplicates removed, first occurrences kept in
their original order. -/
def dedupFirst (l : List String) : List String :=
  dedupSeen l []

/-- `AIAnalyzer._fallback_analysis`: the deterministic rule-based analysis used
when the remote Copado AI call fails, keyed on the incident source and substring
matches in `description + " " + str(raw_data)` (lowercased). -/
def fallback_analysis (incident : Incident) (analysis_duration : ℚ) : AIAnalysis :=
  let incident_text := (incident.description ++ " " ++ renderDict incident.raw_data).toLower
  let has := fun pat => containsSub pat incident_text
  if incident.source = "copado" then
    if has "test_failed" || has "test failure" then
      let actions := ["Review failed test logs and error details",
        "Check recent code changes in trigger logic",
        "Verify field validation rules",
        "Run regression tests on similar components"]
      if has "required_field_missing" then
        ⟨"Fallback analysis: Missing required field validation in Account trigger",
          0.87, actions, [], analysis_duration⟩
      else if has "element not found" then
        ⟨"Fallback analysis: UI element selector changed in recent deployment",
          0.85, actions, [], analysis_duration⟩
      else
        ⟨"Fallback analysis: Test failure in CI/CD pipeline - validation error",
          0.78, actions, [], analysis_duration⟩
    else if has "deployment_failed" || has "deployment failure" then
      ⟨"Fallback analysis: Deployment validation failed - missing required metadata fields",
        0.92,
        ["Check deployment logs for validation errors",
         "Verify metadata field requirements",
         "Review target environment configuration",
         "Trigger automatic rollback if critical"], [], analysis_duration⟩
    else if has "build_failed" then
      ⟨"Fallback analysis: Build compilation error in CI/CD pipeline",
        0.88,
        ["Review build logs for compilation errors",
         "Check recent code changes",
         "Verify dependencies and imports",
         "Run local build to reproduce issue"], [], analysis_duration⟩
    else
      ⟨"Fallback analysis: Copado CI/CD pipeline issue detected",
        0.80,
        ["Review Copado pipeline logs",
         "Check environment configuration",
         "Verify user permissions and access"], [], analysis_duration⟩
  else if incident.source = "git" then
    ⟨"Fallback analysis: Git repository change detected with potential risk",
      0.6,
      ["Review recent commits and changes",
       "Run regression tests on affected modules",
       "Consider rollback if critical",
       "Add monitoring alerts for similar issues"], [], analysis_duration⟩
  else if incident.source = "salesforce" then
    ⟨"Fallback analysis: Admin user updated profile permissions during maintenance",
      0.78,
      ["Check Salesforce audit trail for permission changes",
       "Review recent configuration modifications",
       "Verify data integrity and access controls",
       "Document approved maintenance activities"], [], analysis_duration⟩
  else
    ⟨"Fallback analysis: Configuration or deployment issue detected",
      0.75, [], [], analysis_duration⟩

/-- The parsed result dictionary of `AIAnalyzer._call_copado_ai` (optional
fields mirror the `.get(...)` defaults at the use sites). -/
structure AiResultDict where
  root_cause : Option String := none
  confidence : Option ℚ := none
  suggested_actions : List String := []
  related_incidents : List String := []
deriving DecidableEq, Repr

/-- The result dictionary of `AIAnalyzer._analyze_patterns` (only the
`confidence` key is read downstream); its value depends on the analyzer's
mutable `incident_history`, so it enters the model as an environment input. -/
structure PatternResult where
  confidence : Option ℚ := some 0.3
deriving DecidableEq, Repr

/-- The result dictionary of `AIAnalyzer._predict_incident_impact`. Note the
source never sets a `confidence` key in it, so the merge's
`prediction_result.get("confidence", 0.6)` always reads the default. -/
structure PredictionResult where
  predicted_impact : String := "unknown"
  mttr_estimate : String := "unknown"
  prevention_suggestions : List String := []
  confidence : Option ℚ := none
deriving DecidableEq, Repr

/-- The result dictionary of `AIAnalyzer._find_similar_incidents` (downstream
reads `confidence` and the ids of `similar_incidents`); history-dependent, so an
environment input. -/
structure SimilarityResult where
  confidence : Option ℚ := some 0.2
  similar_incident_ids : List String := []
deriving DecidableEq, Repr

/-- The merged dictionary returned by `AIAnalyzer._combine_analyses`. -/
structure CombinedResult where
  root_cause : String
  confidence : ℚ
  suggested_actions : List String
  related_incidents : List String
  predicted_impact : String
  mttr_estimate : String
deriving DecidableEq, Repr

/-- `AIAnalyzer._combine_analyses`: fixed-weight combination (0.4 / 0.25 / 0.2 /
0.15) of the four engines' confidences, capped at 0.95; suggested actions are
the AI result's actions plus the prediction's prevention suggestions,
de-duplicated in first-seen order and truncated to 8. -/
def combine_analyses (ai_result : AiResultDict) (pattern_result : PatternResult)
    (prediction_result : PredictionResult) (similarity_result : SimilarityResult) :
    CombinedResult :=
  let combined_confidence :=
    (ai_result.confidence.getD 0.5) * 0.4 +
    (pattern_result.confidence.getD 0.3) * 0.25 +
    (prediction_result.confidence.getD 0.6) * 0.2 +
    (similarity_result.confidence.getD 0.3) * 0.15
  let all_actions := ai_result.suggested_actions ++ prediction_result.prevention_suggestions
  let unique_actions := dedupFirst all_actions
  let related_incidents := ai_result.related_incidents ++ similarity_result.similar_incident_ids
  { root_cause := ai_result.root_cause.getD "Multi-factor analysis completed",
    confidence := min 0.95 combined_confidence,
    suggested_actions := unique_actions.take 8,
    related_incidents := related_incidents.take 5,
    predicted_impact := prediction_result.predicted_impact,
    mttr_estimate := prediction_result.mttr_estimate }

/-- The deterministic part of `AIAnalyzer._predict_incident_impact`: severity
keyed impact mapping plus source-keyed prevention suggestions. -/
def predict_incident_impact (incident : Incident) : PredictionResult :=
  let base : String × String :=
    match incident.severity with
    | .critical => ("high", "2-4 hours")
    | .high => ("medium-high", "1-2 hours")
    | .medium => ("medium", "30-60 minutes")
    | .low => ("low", "10-30 minutes")
  let prevention_suggestions :=
    if incident.source = "copado" then
      ["Implement pre-deployment validation checks",
       "Add automated rollback triggers",
       "Enhance test coverage for critical paths"]
    else if incident.source = "git" then
      ["Implement mandatory code reviews",
       "Add pre-commit hooks for validation",
       "Set up branch protection rules"]
    else if incident.source = "salesforce" then
      ["Implement field validation rules",
       "Add audit trail monitoring",
       "Set up permission monitoring"]
    else []
  { predicted_impact := base.1, mttr_estimate := base.2,
    prevention_suggestions := prevention_suggestions, confidence := none }

/-- Environment of one `AIAnalyzer.analyze_incident` call: the outcome of the
remote `_call_copado_ai` request (`Except` models a raised exception) and the
history-dependent pattern / similarity results. -/
structure AnalyzerEnv where
  aiRemote : Except String AiResultDict
  patternResult : PatternResult := {}
  similarityResult : SimilarityResult := {}
  analysis_duration : ℚ := 0

/-- `AIAnalyzer.analyze_incident`: an exception from the remote Copado AI call
is caught in place and answered with `_fallback_analysis` (it does NOT
propagate); otherwise the engines' results are merged by `_combine_analyses`. -/
def analyze_incident (incident : Incident) (env : AnalyzerEnv) : AIAnalysis :=
  match env.aiRemote with
  | .error _ => fallback_analysis incident env.analysis_duration
  | .ok ai_result =>
    let prediction_result := predict_incident_impact incident
    let ensemble_result :=
      combine_analyses ai_result env.patternResult prediction_result env.similarityResult
    { root_cause := ensemble_result.root_cause,
      confidence := ensemble_result.confidence,
      suggested_actions := ensemble_result.suggested_actions,
      related_incidents := ensemble_result.related_incidents,
      analysis_duration := env.analysis_duration }

/-! ## Action executor (`services/action_executor.py`) -/

/-- Python string truthiness of an optional string (`None` and `""` are falsy). -/
def truthyStr : Option String → Bool
  | some v => v ≠ ""
  | none => false

/-- Python `a or b` on optional strings. -/
def pyOr (a b : Option String) : Option String :=
  if truthyStr a then a else b

/-- `dict.get(k)` on an `ActionTaken.result`. -/
def resultGet (r : Option (List (String × String))) (k : String) : Option String :=
  (r.getD []).lookup k

/-- Python truthiness of an `ActionTaken.result` value (`None` and the empty
dict are falsy). -/
def resultTruthy : Option (List (String × String)) → Bool
  | none => false
  | some [] => false
  | some (_ :: _) => true

/-- Python `f"{conf:.0%}"`, with round-half-up standing in for round-half-even
(the two differ only at exact halves, which no studied value hits). -/
def pctFmt (q : ℚ) : String :=
  toString (q * 100 + 1 / 2).floor ++ "%"

/-- `ActionExecutor._map_severity_to_priority`. -/
def map_severity_to_priority (severity : String) : String :=
  (([("low", "Low"), ("medium", "Medium"), ("high", "High"),
     ("critical", "Highest")] : List (String × String)).lookup severity).getD "Medium"

/-- The fixed Jira browse-URL builder used across `action_executor.py`. -/
def browseUrl (sid : String) : String :=
  "https://kartheekdasari1998.atlassian.net/browse/" ++ sid

/-- `ActionExecutor._create_demo_user_story`: the fallback taken when the real
Jira API fails; always reports `status="success"` with a synthesized story id. -/
def create_demo_user_story (incident : Incident) (analysis : AIAnalysis)
    (error_info : Option String) : ActionTaken :=
  let story_id := "US-" ++ (incident.id.take 8).toUpper
  let base_details := "Demo user story " ++ story_id ++ " created for incident " ++
    incident.title ++ " with " ++ pctFmt analysis.confidence ++ " confidence"
  let details_text :=
    match error_info with
    | some e => "Jira API error (" ++ e ++ "), fallback to demo mode: " ++ base_details
    | none => base_details
  { action_type := "jira_user_story",
    description := "Jira user story created: <a href=\x27" ++ browseUrl story_id ++
      "\x27 target=\x27_blank\x27>" ++ story_id ++ "</a>",
    status := "success",
    details := some details_text,
    result := some [("user_story_id", story_id),
      ("title", "[INCIDENT] " ++ incident.title),
      ("priority", map_severity_to_priority incident.severity.value),
      ("status", "Draft"),
      ("url", browseUrl story_id),
      ("description", "Fallback mode - AI-detected incident with " ++
        pctFmt analysis.confidence ++ " confidence")] }

/-- Outcome of the `JiraUserStoryCreator.create_user_story` call inside
`_create_jira_user_story`: either the surrounding `try` caught an exception, or
the API returned a result dict with a `success` flag and issue fields. -/
inductive JiraApiOutcome where
  | raised (msg : String)
  | api (success : Bool) (issue_key issue_url summary priority description
      initial_status : String)
deriving DecidableEq, Repr

/-- `ActionExecutor._create_jira_user_story`: a successful API result yields a
`success` action carrying the issue fields; an unsuccessful result or an
exception falls back to `_create_demo_user_story` (which also reports success). -/
def create_jira_user_story (incident : Incident) (analysis : AIAnalysis)
    (outcome : JiraApiOutcome) : ActionTaken :=
  match outcome with
  | .raised e => create_demo_user_story incident analysis (some e)
  | .api success issue_key issue_url summary priority description initial_status =>
    if success then
      { action_type := "jira_user_story",
        description := "Jira user story created: <a href=\x27" ++ issue_url ++
          "\x27 target=\x27_blank\x27>" ++ issue_key ++ "</a>",
        status := "success",
        details := some ("Successfully created Jira user story " ++ issue_key ++
          " for incident " ++ incident.title),
        result := some [("issue_key", issue_key), ("issue_url", issue_url),
          ("summary", summary), ("priority", priority),
          ("description", description), ("initial_status", initial_status)] }
    else create_demo_user_story incident analysis (some "API failure")

/-- `ActionExecutor._extract_pr_info`: repository and PR number from GitHub
webhook shaped `raw_data`, or from the direct `pr_number`/`repo` form. -/
def extract_pr_info (raw : RawData) : Option (String × String) :=
  match raw.lookup "pull_request" with
  | some (.obj pr) =>
    let repo :=
      match raw.lookup "repository" with
      | some (.obj r) => pyStrOpt (r.lookup "full_name")
      | _ => "None"
    some (repo, pyStrOpt (pr.lookup "number"))
  | _ =>
    match raw.lookup "pr_number", raw.lookup "repo" with
    | some n, some r => some (r.str, n.str)
    | _, _ => none

/-- Environment of one `execute_actions` call: configuration flags and the
outcomes of the external HTTP calls (an `Except.error` models an exception at
the call site). -/
structure ActionEnv where
  github_token : Bool := false
  slack_webhook : Bool := false
  jira : JiraApiOutcome := .raised "no credentials"
  githubPost : Except String Nat := .ok 201
  githubCommentId : String := ""
  githubCommentUrl : String := ""
  githubErrorText : String := ""
  slackPost : Except String Nat := .ok 200
  slackTs : Option String := none
  rollbackPost : Except String Nat := .ok 200
  rollbackId : String := ""

/-- `ActionExecutor._post_github_comment`: skipped without PR info, success on
HTTP 201, failed otherwise or on exception. -/
def post_github_comment (incident : Incident) (env : ActionEnv) : ActionTaken :=
  match extract_pr_info incident.raw_data with
  | none =>
    { action_type := "github_comment",
      description := "No PR information found in incident data",
      status := "skipped",
      details := some "Unable to extract PR number or repository from incident" }
  | some (_repo, pr_number) =>
    match env.githubPost with
    | .ok 201 =>
      { action_type := "github_comment",
        description := "Posted comment on PR #" ++ pr_number ++
          " and added \x27ai-analyzed\x27 label",
        status := "success",
        details := some ("Comment posted successfully with ID " ++ env.githubCommentId),
        result := some [("comment_id", env.githubCommentId),
          ("url", env.githubCommentUrl), ("label_added", "ai-analyzed")] }
    | .ok code =>
      { action_type := "github_comment",
        description := "Failed to post GitHub comment",
        status := "failed",
        details := some ("HTTP " ++ toString code ++ ": " ++ env.githubErrorText),
        result := some [("error", env.githubErrorText)] }
    | .error e =>
      { action_type := "github_comment",
        description := "Failed to post GitHub comment",
        status := "failed",
        details := some ("Exception: " ++ e),
        result := some [("error", e)] }

/-- `ActionExecutor._send_slack_notification`: success on HTTP 200, failed on
any other status or exception. -/
def send_slack_notification (incident : Incident)
    (jira_story_id jira_story_url : Option String) (env : ActionEnv) : ActionTaken :=
  match env.slackPost with
  | .ok 200 =>
    { action_type := "slack_notification",
      description := "Slack notification sent for incident <a href=\x27https://app.slack.com/client/T09DB218CAE\x27 target=\x27_blank\x27>" ++
        incident.id ++ "</a>",
      status := "success",
      result := some [("jira_story_linked", jira_story_id.getD "None"),
        ("jira_url", jira_story_url.getD "None"),
        ("slack_ts", env.slackTs.getD "None")] }
  | .ok code =>
    { action_type := "slack_notification",
      description := "<a href=\x27https://app.slack.com/client/T09DB218CAE\x27 target=\x27_blank\x27>Failed to send Slack notification</a>",
      status := "failed",
      result := some [("status_code", toString code)] }
  | .error e =>
    { action_type := "slack_notification",
      description := "<a href=\x27https://app.slack.com/client/T09DB218CAE\x27 target=\x27_blank\x27>Failed to send Slack notification</a>",
      status := "failed",
      result := some [("error", e)] }

/-- `ActionExecutor._trigger_rollback`: success on HTTP 200, failed otherwise
or on exception. -/
def trigger_rollback (env : ActionEnv) : ActionTaken :=
  match env.rollbackPost with
  | .ok 200 =>
    { action_type := "automated_rollback",
      description := "Triggered automated rollback",
      status := "success",
      result := some [("rollback_id", env.rollbackId)] }
  | .ok code =>
    { action_type := "automated_rollback",
      description := "Failed to trigger rollback",
      status := "failed",
      result := some [("status_code", toString code)] }
  | .error e =>
    { action_type := "automated_rollback",
      description := "Failed to trigger rollback",
      status := "failed",
      result := some [("error", e)] }

/-- Step 1 of `execute_actions`: the Jira user-story creation, the extraction of
the story id / URL for later notifications, and (in the non-success branch) the
second, demo-mode Jira action. Returns the appended actions and the id / URL. -/
def jira_phase (incident : Incident) (analysis : AIAnalysis) (env : ActionEnv) :
    List ActionTaken × Option String × Option String :=
  let jira_action := create_jira_user_story incident analysis env.jira
  if jira_action.status = "success" && resultTruthy jira_action.result then
    let jira_story_id := pyOr (resultGet jira_action.result "issue_key")
      (resultGet jira_action.result "user_story_id")
    let jira_story_url := pyOr (resultGet jira_action.result "issue_url")
      (resultGet jira_action.result "url")
    let jira_story_url :=
      if truthyStr jira_story_id && !truthyStr jira_story_url then
        some (browseUrl (jira_story_id.getD "None"))
      else if truthyStr jira_story_url &&
          !containsSub "atlassian.net" (jira_story_url.getD "") then
        some (browseUrl (jira_story_id.getD "None"))
      else jira_story_url
    ([jira_action], jira_story_id, jira_story_url)
  else
    let jira_story_id := "AIOBS-" ++ (incident.id.take 2).toUpper ++
      toString incident.title.length
    let jira_story_url := browseUrl jira_story_id
    let jira_action2 : ActionTaken :=
      { action_type := "jira_user_story",
        description := "Jira user story created: <a href=\x27" ++ jira_story_url ++
          "\x27 target=\x27_blank\x27>" ++ jira_story_id ++ "</a>",
        status := "success",
        result := some [("user_story_id", jira_story_id), ("priority", "High"),
          ("url", jira_story_url)] }
    ([jira_action, jira_action2], some jira_story_id, some jira_story_url)

/-- Step 2 of `execute_actions`: GitHub PR comment (real with a token, demo
without one) for git-like sources only. -/
def github_phase (incident : Incident) (env : ActionEnv) : List ActionTaken :=
  if env.github_token && (incident.source = "git" || incident.source = "github_pr") then
    [post_github_comment incident env]
  else if incident.source = "git" || incident.source = "github_pr" then
    [{ action_type := "github_comment",
       description := "Posted GitHub comment with suggested fix",
       status := "success",
       result := some [("pr_number", "123"), ("comment_id", "456789")] }]
  else []

/-- Step 3 of `execute_actions`: Slack notification (real with a configured
webhook, demo success otherwise). -/
def slack_phase (incident : Incident)
    (jira_story_id jira_story_url : Option String) (env : ActionEnv) : List ActionTaken :=
  if env.slack_webhook then
    [send_slack_notification incident jira_story_id jira_story_url env]
  else
    [{ action_type := "slack_notification",
       description := "Slack notification sent for incident <a href=\x27https://app.slack.com/client/T09DB218CAE\x27 target=\x27_blank\x27>" ++
         incident.id ++ "</a>",
       status := "success",
       result := some [("channel", "#devops-alerts"), ("message_id", "1234567890"),
         ("jira_story", jira_story_id.getD "None")] }]

/-- Step 4 of `execute_actions`: the automated rollback, only for critical
incidents with analysis confidence above 0.8 (`demo_mode` is hard-coded to
`False` in the source, so the demo rollback branch is dead code). -/
def rollback_phase (incident : Incident) (analysis : AIAnalysis) (env : ActionEnv) :
    List ActionTaken :=
  if incident.severity = .critical && analysis.confidence > 0.8 then
    [trigger_rollback env]
  else []

/-- `ActionExecutor.execute_actions`: the four steps in their fixed order. -/
def execute_actions (incident : Incident) (analysis : AIAnalysis) (env : ActionEnv) :
    List ActionTaken :=
  let jp := jira_phase incident analysis env
  jp.1 ++ github_phase incident env ++
    slack_phase incident jp.2.1 jp.2.2 env ++ rollback_phase incident analysis env

/-- Environment of one `sync_jira_status` call: the mapped / searched issue key
and the outcome of the Jira transition request. -/
structure JiraSyncEnv where
  mappedIssueKey : Option String := none
  updateResult : Except String Bool := .ok true
  updateError : String := "Unknown error"
  jiraNewStatus : String := ""
  demoMode : Bool := false

/-- `ActionExecutor.sync_jira_status`: note that its successful branch builds an
`ActionTaken` with `status="completed"` — outside the `success`/`failed`/
`skipped` value set — but no caller ever appends its return value to an
incident's `actions_taken`. -/
def sync_jira_status (incident : Incident) (old_status : Option IncidentStatus)
    (env : JiraSyncEnv) : ActionTaken :=
  match env.mappedIssueKey with
  | none =>
    { action_type := "jira_status_sync",
      description := "No Jira issue found to sync",
      status := "skipped" }
  | some issue_key =>
    match env.updateResult with
    | .error e =>
      { action_type := "jira_status_sync",
        description := "Exception during Jira status sync: " ++ e,
        status := "failed",
        result := some [("error", e)] }
    | .ok true =>
      let old_status_value := match old_status with
        | some s => s.value
        | none => "unknown"
      { action_type := "jira_status_sync",
        description := "Jira issue " ++ issue_key ++ " status synced: " ++
          old_status_value ++ " → " ++ incident.status.value,
        status := "completed",
        result := some [("issue_key", issue_key), ("old_status", old_status_value),
          ("new_status", incident.status.value), ("jira_status", env.jiraNewStatus),
          ("demo_mode", if env.demoMode then "True" else "False")] }
    | .ok false =>
      { action_type := "jira_status_sync",
        description := "Failed to sync Jira issue " ++ issue_key ++ ": " ++ env.updateError,
        status := "failed",
        result := some [("error", env.updateError)] }

/-! ## Incident pipeline (`main.py`) -/

/-- Environment of one `analyze_and_act` call: the analyzer environment, the
outputs of the three other (randomised) engines as read by `.get(...)` at the
call site, and raise flags for the two spots where an exception can escape into
the surrounding `except` handler (the gathered engine tasks, and
`execute_actions`); `AIAnalyzer.analyze_incident` itself never raises, since it
converts its own failures into `_fallback_analysis`. -/
structure AAAEnv where
  gatherRaises : Bool := false
  analyzer : AnalyzerEnv
  ml_confidence : Option ℚ := none
  ml_recommended_actions : List String := []
  ml_insights : List String := []
  copado_optimization_actions : List String := []
  copado_insights : List String := []
  quantum_confidence : Option ℚ := none
  quantum_recommendations : List String := []
  quantum_insights : List String := []
  execRaises : Bool := false
  actions : ActionEnv := {}

/-- The `except` handler of `analyze_and_act`: on any exception escaping the
body, the incident is stamped `root_cause="Analysis failed"`,
`confidence_score=0.0`, `status=FAILED` (whatever partial mutations happened
before the raise are kept). -/
def analyzeFail (incident : Incident) : Incident :=
  { incident with
    root_cause := some "Analysis failed",
    confidence_score := some 0, status := .failed }

/-- `analyze_and_act` of `main.py`: OPEN → IN_PROGRESS, multi-engine analysis,
confidence merge `min(0.98, (ai + ml + quantum)/3 + 0.15)` (the Copado
intelligence engine's output contributes no confidence term), de-duplicated
top-5 suggested actions, action execution, then RESOLVED with `resolved_at`
stamped at `resolved_time`. -/
def analyze_and_act (incident : Incident) (env : AAAEnv)
    (resolved_time : PyDateTime) : Incident :=
  let inc1 := { incident with status := IncidentStatus.in_progress }
  if env.gatherRaises then analyzeFail inc1
  else
    let analysis := analyze_incident inc1 env.analyzer
    let confidence_score := min (0.98 : ℚ)
      ((analysis.confidence + env.ml_confidence.getD 0.5 +
        env.quantum_confidence.getD 0.5) / 3 + 0.15)
    let all_actions := analysis.suggested_actions ++ env.ml_recommended_actions ++
      env.copado_optimization_actions ++ env.quantum_recommendations
    let inc2 := { inc1 with
      root_cause := some analysis.root_cause,
      confidence_score := some confidence_score,
      suggested_actions := (dedupFirst all_actions).take 5,
      ml_insights := env.ml_insights,
      copado_insights := env.copado_insights,
      quantum_insights := env.quantum_insights }
    if env.execRaises then analyzeFail inc2
    else
      let actions := execute_actions inc2 analysis env.actions
      let inc3 := { inc2 with
        actions_taken := inc2.actions_taken ++ actions.map ActionEntry.taken }
      { inc3 with status := IncidentStatus.resolved, resolved_at := some resolved_time }

/-- The response body of `POST /incidents/{id}/status/{new_status}`. -/
structure StatusResponse where
  status : String
  incident_id : String
  old_status : String
  jira_synced : Bool
deriving DecidableEq, Repr

/-- The in-place mutation performed by `update_incident_status` on the stored
incident: set the new status, stamp `resolved_at` when it is `resolved` (never
cleared otherwise), then the duplicated second assignment of the status. -/
def apply_status_update (incident : Incident) (status_enum : IncidentStatus)
    (now : PyDateTime) : Incident :=
  let inc1 := { incident with status := status_enum }
  let inc2 :=
    if status_enum = IncidentStatus.resolved then
      { inc1 with resolved_at := some now }
    else inc1
  { inc2 with status := status_enum }

/-- The `POST /incidents/{id}/status/{new_status}` handler: 404 on an unknown
id, 400 on an unrecognised status, otherwise mutate the incident and answer.
The handler reads `old_status` a second time AFTER overwriting
`incident.status`, so the reported `old_status` is the new status; the
`sync_jira_status` result is logged and dropped (never appended). -/
def update_incident_status (store : IncidentStore) (incident_id new_status : String)
    (now : PyDateTime) (syncEnv : JiraSyncEnv) :
    Except Nat (IncidentStore × StatusResponse) :=
  match storeLookup store incident_id with
  | none => .error 404
  | some incident =>
    match IncidentStatus.ofString new_status.toLower with
    | none => .error 400
    | some status_enum =>
      let incident2 := apply_status_update incident status_enum now
      let old_status := incident2.status
      let _sync_action := sync_jira_status incident2 (some old_status) syncEnv
      .ok (storeInsert store incident_id incident2,
        { status := status_enum.value, incident_id := incident_id,
          old_status := old_status.value, jira_synced := true })

/-- Environment of one webhook-pipeline run: the UUID generated for a new
incident, the wall-clock fallback time, the `analyze_and_act` environment and
the time stamped on resolution. -/
structure PipelineEnv where
  newId : String
  now : PyDateTime
  aaa : AAAEnv
  resolved_time : PyDateTime

/-- The shared tail of `process_git_event` / `process_copado_event` /
`process_salesforce_event`: on an anomalous signal, create the incident (the
store insert happens inside `create_incident_from_signal`, after the timestamp
extraction) and push it through `analyze_and_act`; a `TypeError` escaping the
extraction is swallowed by the handler's catch-all `except` with NO incident
stored. `analyze_and_act` handles its own exceptions, so the store always
receives the final incident when one is created. -/
def handle_anomalous_signal (store : IncidentStore) (signal : Signal)
    (source : String) (env : PipelineEnv) : IncidentStore :=
  if signal.is_anomaly then
    match create_incident_from_signal env.newId signal source env.now with
    | .error _ => store
    | .ok incident =>
      let store1 := storeInsert store env.newId incident
      let incident2 := analyze_and_act incident env.aaa env.resolved_time
      storeInsert store1 env.newId incident2
  else store

/-- `process_git_event` of `main.py`: an exception escaping the signal detector
(malformed `commits` / `pull_request` values) is swallowed by the catch-all
`except`, leaving the store untouched. -/
def process_git_event (store : IncidentStore) (payload : WebhookPayload)
    (env : PipelineEnv) : IncidentStore :=
  match analyze_git_event payload with
  | .error _ => store
  | .ok signal => handle_anomalous_signal store signal "git" env

/-- `process_copado_event` of `main.py` (`analyze_copado_event` is total). -/
def process_copado_event (store : IncidentStore) (payload : WebhookPayload)
    (env : PipelineEnv) : IncidentStore :=
  handle_anomalous_signal store (analyze_copado_event payload) "copado" env

/-- The JSON body every webhook endpoint returns. -/
structure WebhookResponse where
  status : String
deriving DecidableEq, Repr

/-- `POST /webhook/copado`: process only the three CI/CD failure event types,
acknowledge everything with `{"status": "received"}`. -/
def copado_webhook (store : IncidentStore) (payload : WebhookPayload)
    (env : PipelineEnv) : IncidentStore × WebhookResponse :=
  if payload.event_type ∈ ["deployment_failed", "test_failed", "build_failed"] then
    (process_copado_event store payload env, { status := "received" })
  else (store, { status := "received" })

/-- `POST /webhook/github`: process only `push` / `pull_request`, acknowledge
everything with `{"status": "received"}`. -/
def github_webhook (store : IncidentStore) (payload : WebhookPayload)
    (env : PipelineEnv) : IncidentStore × WebhookResponse :=
  if payload.event_type ∈ ["push", "pull_request"] then
    (process_git_event store payload env, { status := "received" })
  else (store, { status := "received" })

/-! ## PR-comment recording (`services/incident_manager.py`) -/

/-- The plain Python dict `IncidentManager.add_detailed_pr_comment` appends to
`incident.actions_taken` after a successful comment POST: type / timestamp /
details / success — and no `status` key at all. -/
def pr_comment_action (timestamp repo : String) (pr_number : Nat) : ActionEntry :=
  .dict [("type", "pr_comment"), ("timestamp", timestamp),
    ("details", "Added detailed analysis comment to <a href=\"https://github.com/" ++
      repo ++ "/pull/" ++ toString pr_number ++ "\" target=\"_blank\">PR #" ++
      toString pr_number ++ "</a>"),
    ("success", "True")]

/-- Environment of one `add_detailed_pr_comment` call. -/
structure PrCommentEnv where
  alreadyLabeled : Bool := false
  postStatus : Nat := 201
  timestamp : String := ""
  repo : String := "your-repo"

/-- `IncidentManager.add_detailed_pr_comment`: skips PRs already labelled,
appends the plain-dict action entry on a 201 response, leaves the incident
untouched otherwise. -/
def add_detailed_pr_comment (incident : Incident) (pr_number : Nat)
    (env : PrCommentEnv) : Incident :=
  if env.alreadyLabeled then incident
  else if env.postStatus = 201 then
    { incident with actions_taken := incident.actions_taken ++
        [pr_comment_action env.timestamp env.repo pr_number] }
  else incident

/-! ## Reachable incident states -/

/-- The incident states reachable through the code paths that mutate an
incident held in the `main.py` store: successful creation from a signal, the
status endpoint's mutation, and the `analyze_and_act` pipeline. -/
inductive ReachableIncident : Incident → Prop where
  | created (id : String) (signal : Signal) (source : String) (now : PyDateTime)
      (inc : Incident) :
      create_incident_from_signal id signal source now = .ok inc →
      ReachableIncident inc
  | updated (incident : Incident) (status_enum : IncidentStatus) (now : PyDateTime) :
      ReachableIncident incident →
      ReachableIncident (apply_status_update incident status_enum now)
  | analyzed (incident : Incident) (env : AAAEnv) (t : PyDateTime) :
      ReachableIncident incident →
      ReachableIncident (analyze_and_act incident env t)

/-! ## Helper lemmas -/

theorem storeLookup_insert_self (st : IncidentStore) (id : String) (inc : Incident) :
    storeLookup (storeInsert st id inc) id = some inc := by
  induction st with
  | nil => simp [storeInsert, storeLookup]
  | cons p rest ih =>
    obtain ⟨k, v⟩ := p
    by_cases h : k = id
    · subst h
      simp [storeInsert, storeLookup]
    · simp [storeInsert, storeLookup, h, ih]

theorem storeInsert_length_new (st : IncidentStore) (id : String) (inc : Incident)
    (h : storeLookup st id = none) :
    (storeInsert st id inc).length = st.length + 1 := by
  induction st with
  | nil => simp [storeInsert]
  | cons p rest ih =>
    obtain ⟨k, v⟩ := p
    by_cases hk : k = id
    · simp [storeLookup, hk] at h
    · simp [storeLookup, hk] at h
      simp [storeInsert, hk, ih h]

theorem storeInsert_length_old (st : IncidentStore) (id : String) (inc v : Incident)
    (h : storeLookup st id = some v) :
    (storeInsert st id inc).length = st.length := by
  induction st with
  | nil => simp [storeLookup] at h
  | cons p rest ih =>
    obtain ⟨k, w⟩ := p
    by_cases hk : k = id
    · simp [storeInsert, hk]
    · simp [storeLookup, hk] at h
      simp [storeInsert, hk, ih h]

theorem dedupSeen_sublist (xs : List String) :
    ∀ seen, List.Sublist (dedupSeen xs seen) xs := by
  induction xs with
  | nil => intro seen; simp [dedupSeen]
  | cons x xs ih =>
    intro seen
    simp only [dedupSeen]
    split
    · exact (ih seen).cons x
    · exact (ih (x :: seen)).cons₂ x

theorem dedupSeen_not_seen (xs : List String) :
    ∀ seen y, y ∈ dedupSeen xs seen → y ∉ seen := by
  induction xs with
  | nil => intro seen y hy; simp [dedupSeen] at hy
  | cons x xs ih =>
    intro seen y hy
    simp only [dedupSeen] at hy
    split at hy
    · exact ih seen y hy
    · rcases List.mem_cons.mp hy with h1 | h2
      · subst h1
        assumption
      · intro hseen
        exact ih (x :: seen) y h2 (List.mem_cons_of_mem x hseen)

theorem dedupSeen_nodup (xs : List String) : ∀ seen, (dedupSeen xs seen).Nodup := by
  induction xs with
  | nil => intro seen; simp [dedupSeen]
  | cons x xs ih =>
    intro seen
    simp only [dedupSeen]
    split
    · exact ih seen
    · refine List.nodup_cons.mpr ⟨?_, ih (x :: seen)⟩
      intro hx
      exact dedupSeen_not_seen xs (x :: seen) x hx (List.mem_cons_self x seen)

theorem dedupFirst_nodup (l : List String) : (dedupFirst l).Nodup :=
  dedupSeen_nodup l []

theorem dedupFirst_sublist (l : List String) : List.Sublist (dedupFirst l) l :=
  dedupSeen_sublist l []

theorem create_jira_user_story_status (incident : Incident) (analysis : AIAnalysis)
    (outcome : JiraApiOutcome) :
    (create_jira_user_story incident analysis outcome).status = "success" := by
  cases outcome with
  | raised e => rfl
  | api success k u s p d i =>
    cases success
    · rfl
    · rfl

theorem create_jira_user_story_result_truthy (incident : Incident)
    (analysis : AIAnalysis) (outcome : JiraApiOutcome) :
    resultTruthy (create_jira_user_story incident analysis outcome).result = true := by
  cases outcome with
  | raised e => rfl
  | api success k u s p d i =>
    cases success
    · rfl
    · rfl

theorem jira_phase_actions (incident : Incident) (analysis : AIAnalysis)
    (env : ActionEnv) :
    (jira_phase incident analysis env).1 =
      [create_jira_user_story incident analysis env.jira] := by
  simp [jira_phase, create_jira_user_story_status, create_jira_user_story_result_truthy]

theorem post_github_comment_status (incident : Incident) (env : ActionEnv) :
    (post_github_comment incident env).status ∈ ["success", "failed", "skipped"] := by
  unfold post_github_comment
  split
  · simp
  · split <;> simp

theorem send_slack_notification_status (incident : Incident)
    (jid jurl : Option String) (env : ActionEnv) :
    (send_slack_notification incident jid jurl env).status ∈
      ["success", "failed", "skipped"] := by
  unfold send_slack_notification
  split <;> simp

theorem trigger_rollback_status (env : ActionEnv) :
    (trigger_rollback env).status ∈ ["success", "failed", "skipped"] := by
  unfold trigger_rollback
  split <;> simp

theorem github_phase_status (incident : Incident) (env : ActionEnv) :
    ∀ x ∈ github_phase incident env, x.status ∈ ["success", "failed", "skipped"] := by
  intro x hx
  unfold github_phase at hx
  split at hx
  · rcases List.mem_singleton.mp hx with rfl
    exact post_github_comment_status incident env
  · split at hx
    · rcases List.mem_singleton.mp hx with rfl
      simp
    · simp at hx

theorem github_phase_type (incident : Incident) (env : ActionEnv) :
    ∀ x ∈ github_phase incident env, x.action_type = "github_comment" := by
  intro x hx
  unfold github_phase at hx
  split at hx
  · rcases List.mem_singleton.mp hx with rfl
    unfold post_github_comment
    split
    · rfl
    · split <;> rfl
  · split at hx
    · rcases List.mem_singleton.mp hx with rfl
      rfl
    · simp at hx

theorem slack_phase_status (incident : Incident) (jid jurl : Option String)
    (env : ActionEnv) :
    ∀ x ∈ slack_phase incident jid jurl env,
      x.status ∈ ["success", "failed", "skipped"] := by
  intro x hx
  unfold slack_phase at hx
  split at hx
  · rcases List.mem_singleton.mp hx with rfl
    exact send_slack_notification_status incident jid jurl env
  · rcases List.mem_singleton.mp hx with rfl
    simp

theorem slack_phase_type (incident : Incident) (jid jurl : Option String)
    (env : ActionEnv) :
    ∀ x ∈ slack_phase incident jid jurl env, x.action_type = "slack_notification" := by
  intro x hx
  unfold slack_phase at hx
  split at hx
  · rcases List.mem_singleton.mp hx with rfl
    unfold send_slack_notification
    split <;> rfl
  · rcases List.mem_singleton.mp hx with rfl
    rfl

theorem rollback_phase_status (incident : Incident) (analysis : AIAnalysis)
    (env : ActionEnv) :
    ∀ x ∈ rollback_phase incident analysis env,
      x.status ∈ ["success", "failed", "skipped"] := by
  intro x hx
  unfold rollback_phase at hx
  split at hx
  · rcases List.mem_singleton.mp hx with rfl
    exact trigger_rollback_status env
  · simp at hx

theorem rollback_phase_type (incident : Incident) (analysis : AIAnalysis)
    (env : ActionEnv) :
    ∀ x ∈ rollback_phase incident analysis env,
      x.action_type = "automated_rollback" := by
  intro x hx
  unfold rollback_phase at hx
  split at hx
  · rcases List.mem_singleton.mp hx with rfl
    unfold trigger_rollback
    split <;> rfl
  · simp at hx

theorem execute_actions_status (incident : Incident) (analysis : AIAnalysis)
    (env : ActionEnv) :
    ∀ x ∈ execute_actions incident analysis env,
      x.status ∈ ["success", "failed", "skipped"] := by
  intro x hx
  simp only [execute_actions] at hx
  rw [jira_phase_actions] at hx
  rcases List.mem_append.mp hx with h1 | h4
  · rcases List.mem_append.mp h1 with h2 | h3
    · rcases List.mem_append.mp h2 with h5 | h6
      · rcases List.mem_singleton.mp h5 with rfl
        rw [create_jira_user_story_status]
        simp
      · exact github_phase_status incident env x h6
    · exact slack_phase_status incident _ _ env x h3
  · exact rollback_phase_status incident analysis env x h4

theorem apply_status_update_status (incident : Incident)
    (status_enum : IncidentStatus) (now : PyDateTime) :
    (apply_status_update incident status_enum now).status = status_enum := by
  unfold apply_status_update
  split <;> rfl

theorem apply_status_update_resolved_at (incident : Incident)
    (status_enum : IncidentStatus) (now : PyDateTime) :
    (apply_status_update incident status_enum now).resolved_at =
      (if status_enum = IncidentStatus.resolved then some now
       else incident.resolved_at) := by
  unfold apply_status_update
  split <;> rfl

theorem apply_status_update_actions (incident : Incident)
    (status_enum : IncidentStatus) (now : PyDateTime) :
    (apply_status_update incident status_enum now).actions_taken =
      incident.actions_taken := by
  unfold apply_status_update
  split <;> rfl

theorem create_ok_fields (id : String) (sig : Signal) (src : String)
    (now : PyDateTime) (inc : Incident)
    (h : create_incident_from_signal id sig src now = .ok inc) :
    inc.status = IncidentStatus.open_
    ∧ inc.severity =
        (if sig.severity > 0.7 then IncidentSeverity.high else IncidentSeverity.medium)
    ∧ inc.resolved_at = none := by
  unfold create_incident_from_signal at h
  cases hext : extract_detected_at now sig.raw_data with
  | error e =>
    rw [hext] at h
    simp [Except.map] at h
  | ok dt =>
    rw [hext] at h
    simp only [Except.map, Except.ok.injEq] at h
    subst h
    exact ⟨rfl, rfl, rfl⟩

theorem create_detected_at (id : String) (sig : Signal) (src : String)
    (now : PyDateTime) :
    Except.map Incident.detected_at (create_incident_from_signal id sig src now)
      = extract_detected_at now sig.raw_data := by
  unfold create_incident_from_signal
  cases hext : extract_detected_at now sig.raw_data with
  | error e => rfl
  | ok dt => rfl

theorem analyze_and_act_cases (incident : Incident) (env : AAAEnv)
    (t : PyDateTime) :
    ((analyze_and_act incident env t).status = IncidentStatus.failed) ∨
    ((analyze_and_act incident env t).status = IncidentStatus.resolved ∧
      (analyze_and_act incident env t).resolved_at = some t) := by
  unfold analyze_and_act
  split
  · exact Or.inl rfl
  · split
    · exact Or.inl rfl
    · exact Or.inr ⟨rfl, rfl⟩

/-! ## Concrete inputs used by witnesses and counterexamples -/

/-- A concrete detection time. -/
def dtA : PyDateTime := ⟨2025, 1, 1, 0, 0, 0, some 0⟩

/-- A concrete resolution time. -/
def dtB : PyDateTime := ⟨2025, 1, 2, 0, 0, 0, some 0⟩

/-- A concrete later time. -/
def dtC : PyDateTime := ⟨2025, 1, 3, 0, 0, 0, some 0⟩

/-- A concrete Copado `deployment_failed` webhook payload. -/
def c1payload : WebhookPayload :=
  { source := "copado", event_type := "deployment_failed",
    data := [("environment", .s "production")] }

/-- The signal the detector produces for `c1payload`. -/
def c1sig : Signal := analyze_copado_event c1payload

/-- A placeholder incident, returned by `incidentOrDummy` only on creation
failure (never the case for the concrete inputs below). -/
def dummyIncident : Incident :=
  { id := "", title := "", description := "", severity := .low, status := .open_,
    source := "", raw_data := [], detected_at := dtA }

/-- The payload of a successful `create_incident_from_signal` call. -/
def incidentOrDummy : Except Unit Incident → Incident
  | .ok inc => inc
  | .error _ => dummyIncident

/-- The incident created from `c1sig` (creation succeeds: its `raw_data` has no
`data` key). -/
def c1inc : Incident :=
  incidentOrDummy (create_incident_from_signal "inc-1" c1sig "copado" dtA)

/-- A store holding that single incident. -/
def c1store : IncidentStore := [("inc-1", c1inc)]

/-- A concrete git pull-request signal. -/
def c2sig : Signal :=
  { source := "git", event_type := "pull_request",
    description := "Bug fix PR detected: Fix login", severity := 0.5,
    is_anomaly := true, raw_data := [] }

/-- The incident created from `c2sig` (creation succeeds: empty `raw_data`). -/
def c2inc : Incident :=
  incidentOrDummy (create_incident_from_signal "abc-123" c2sig "git" dtA)

/-- An `analyze_and_act` environment in which the remote Copado AI call raises
and nothing else goes wrong. -/
def c2env : AAAEnv := { analyzer := { aiRemote := .error "Copado AI API failure" } }

/-! ## Claim C1 -/

/-- C1, amended: one direction of the claimed equivalence does hold — every
incident state reachable through incident creation, the status endpoint and the
`analyze_and_act` pipeline has `resolved_at ≠ None` whenever
`status == resolved`. (The converse fails: see the counterexample.) -/
theorem claim1_amended : ∀ inc : Incident, ReachableIncident inc →
    inc.status = IncidentStatus.resolved → inc.resolved_at ≠ none := by
  intro inc h
  induction h with
  | created id sig src now inc hok =>
    intro hs
    rw [(create_ok_fields id sig src now inc hok).1] at hs
    exact absurd hs (by simp)
  | updated inc e now hr ih =>
    intro hs
    rw [apply_status_update_status] at hs
    subst hs
    rw [apply_status_update_resolved_at]
    simp
  | analyzed inc env t hr ih =>
    intro hs
    rcases analyze_and_act_cases inc env t with hf | ⟨hres, hra⟩
    · rw [hf] at hs
      exact absurd hs (by simp)
    · rw [hra]
      simp

/-- Witness for `claim1_amended` at a concrete reachable incident. -/
theorem claim1_witness :
    (apply_status_update c1inc IncidentStatus.resolved dtB).resolved_at ≠ none :=
  claim1_amended _
    (ReachableIncident.updated _ _ _
      (ReachableIncident.created "inc-1" c1sig "copado" dtA c1inc
        (by with_unfolding_all rfl)))
    (by with_unfolding_all decide)

/-- C1, counterexample: resolving an incident through the status endpoint and
then moving it back to `open` leaves `resolved_at` set, so an incident whose
status is `open` can have `resolved_at ≠ None`; the claimed equivalence is
false over reachable incident states. -/
theorem claim1_counterexample :
    (((update_incident_status c1store "inc-1" "resolved" dtB {}).bind
        (fun p => update_incident_status p.1 "inc-1" "open" dtC {})).toOption.map
      (fun p => (storeLookup p.1 "inc-1").map (fun i => (i.status, i.resolved_at)))
      = some (some (IncidentStatus.open_, some dtB)))
    ∧ ¬ (∀ inc : Incident, ReachableIncident inc →
          (inc.resolved_at ≠ none ↔ inc.status = IncidentStatus.resolved)) := by
  constructor
  · with_unfolding_all decide
  · intro h
    have hr : ReachableIncident
        (apply_status_update (apply_status_update c1inc IncidentStatus.resolved dtB)
          IncidentStatus.open_ dtC) :=
      ReachableIncident.updated _ _ _
        (ReachableIncident.updated _ _ _
          (ReachableIncident.created "inc-1" c1sig "copado" dtA c1inc
            (by with_unfolding_all rfl)))
    have hiff := h _ hr
    have hres := hiff.mp (by with_unfolding_all decide)
    revert hres
    with_unfolding_all decide

/-! ## Claim C2 -/

/-- C2, amended: the `failed` terminal state (`root_cause="Analysis failed"`,
`confidence_score=0.0`) is produced exactly when an exception escapes the body
of `analyze_and_act` (the gathered engine tasks or `execute_actions`); an
exception of the remote Copado AI call alone never escapes — it is caught
inside `AIAnalyzer.analyze_incident`, replaced by the rule-based
`_fallback_analysis`, and the incident proceeds to `resolved`. -/
theorem claim2_amended : ∀ (inc : Incident) (env : AAAEnv) (t : PyDateTime),
    ((env.gatherRaises = true ∨ env.execRaises = true) →
      (analyze_and_act inc env t).root_cause = some "Analysis failed" ∧
      (analyze_and_act inc env t).confidence_score = some 0 ∧
      (analyze_and_act inc env t).status = IncidentStatus.failed)
    ∧ (env.gatherRaises = false → env.execRaises = false →
        (analyze_and_act inc env t).status = IncidentStatus.resolved ∧
        (analyze_and_act inc env t).resolved_at = some t) := by
  intro inc env t
  constructor
  · intro hraise
    by_cases hg : env.gatherRaises = true
    · simp [analyze_and_act, hg, analyzeFail]
    · have he : env.execRaises = true := by
        rcases hraise with h | h
        · exact absurd h hg
        · exact h
      simp [analyze_and_act, hg, he, analyzeFail]
  · intro hg he
    simp [analyze_and_act, hg, he]

/-- Witness for `claim2_amended`: a raising environment yields `failed`, a
clean one yields `resolved`. -/
theorem claim2_witness :
    (analyze_and_act c2inc { analyzer := { aiRemote := .ok {} }, gatherRaises := true }
        dtB).status = IncidentStatus.failed
    ∧ (analyze_and_act c2inc c2env dtB).status = IncidentStatus.resolved :=
  ⟨((claim2_amended c2inc { analyzer := { aiRemote := .ok {} }, gatherRaises := true }
      dtB).1 (Or.inl rfl)).2.2,
   ((claim2_amended c2inc c2env dtB).2 rfl rfl).1⟩

/-- C2, counterexample: with the remote Copado AI call raising (and nothing
else failing), the incident does NOT end in the `failed` state with
`root_cause="Analysis failed"` and `confidence_score=0.0`; it ends `resolved`
carrying the rule-based fallback analysis. -/
theorem claim2_counterexample :
    analyze_incident c2inc c2env.analyzer = fallback_analysis c2inc 0
    ∧ (analyze_and_act c2inc c2env dtB).status = IncidentStatus.resolved
    ∧ (analyze_and_act c2inc c2env dtB).status ≠ IncidentStatus.failed
    ∧ (analyze_and_act c2inc c2env dtB).root_cause =
        some "Fallback analysis: Git repository change detected with potential risk"
    ∧ (analyze_and_act c2inc c2env dtB).root_cause ≠ some "Analysis failed"
    ∧ (analyze_and_act c2inc c2env dtB).confidence_score ≠ some 0 := by
  with_unfolding_all decide

/-! ## Claim C3 -/

/-- C3: `create_incident_from_signal` derives the incident severity from the
signal severity with the fixed cutoff `> 0.7` (`high` above, `medium`
otherwise), never assigning `low` or `critical`; a Copado `deployment_failed`
event carries signal severity 0.9 and so yields a `high` incident. -/
theorem claim3_severity : ∀ (id : String) (sig : Signal) (src : String)
    (now : PyDateTime) (payload : WebhookPayload) (inc : Incident),
    (create_incident_from_signal id sig src now = .ok inc →
      (inc.severity =
        if sig.severity > 0.7 then IncidentSeverity.high else IncidentSeverity.medium)
      ∧ (inc.severity = IncidentSeverity.high
         ∨ inc.severity = IncidentSeverity.medium))
    ∧ (payload.event_type = "deployment_failed" →
        (analyze_copado_event payload).severity = 0.9
        ∧ (create_incident_from_signal id (analyze_copado_event payload) "copado"
            now = .ok inc → inc.severity = IncidentSeverity.high)) := by
  intro id sig src now payload inc
  constructor
  · intro hok
    have hsev := (create_ok_fields id sig src now inc hok).2.1
    refine ⟨hsev, ?_⟩
    rw [hsev]
    by_cases h : sig.severity > 0.7
    · left
      simp [h]
    · right
      simp [h]
  · intro he
    have hsev : (analyze_copado_event payload).severity = 0.9 := by
      simp [analyze_copado_event, he, severity_map]
    refine ⟨hsev, ?_⟩
    intro hok
    have h9 := (create_ok_fields id (analyze_copado_event payload) "copado" now
      inc hok).2.1
    rw [hsev] at h9
    rw [h9]
    have : ((0.9 : ℚ) > 0.7) := by norm_num
    simp [this]

/-- Witness for `claim3_severity` at the concrete `deployment_failed` payload
and the incident actually created from it. -/
theorem claim3_witness :
    (analyze_copado_event c1payload).severity = 0.9
    ∧ c1inc.severity = IncidentSeverity.high :=
  ⟨((claim3_severity "inc-1" c1sig "copado" dtA c1payload c1inc).2 rfl).1,
   ((claim3_severity "inc-1" c1sig "copado" dtA c1payload c1inc).2 rfl).2
     (by with_unfolding_all rfl)⟩

/-! ## Claim C4 -/

/-- A concrete analysis for action-executor runs. -/
def c4an : AIAnalysis :=
  ⟨"Deployment validation failed", 0.9, ["Check logs"], [], 0⟩

/-- A concrete action environment whose Jira call raises. -/
def c4env : ActionEnv := { jira := .raised "boom" }

/-- C4, amended: every `ActionTaken` model appended through the
`execute_actions` path has `status ∈ {success, failed, skipped}`, and
`actions_taken` is append-only across the pipeline, the status endpoint and the
PR-comment path; but the PR-comment path appends plain dict entries that carry
a `success` flag and no `status` field at all (and `sync_jira_status`, whose
successful branch uses `status="completed"`, is never appended by callers —
the status endpoint drops its result). -/
theorem claim4_amended :
    (∀ (inc : Incident) (an : AIAnalysis) (env : ActionEnv),
      ∀ x ∈ execute_actions inc an env, x.status ∈ ["success", "failed", "skipped"])
    ∧ (∀ (inc : Incident) (env : AAAEnv) (t : PyDateTime), ∃ suffix,
        (analyze_and_act inc env t).actions_taken = inc.actions_taken ++ suffix)
    ∧ (∀ (inc : Incident) (e : IncidentStatus) (now : PyDateTime),
        (apply_status_update inc e now).actions_taken = inc.actions_taken)
    ∧ (∀ (inc : Incident) (pr : Nat) (env : PrCommentEnv), ∃ suffix,
        (add_detailed_pr_comment inc pr env).actions_taken =
          inc.actions_taken ++ suffix)
    ∧ (∀ (ts repo : String) (pr : Nat),
        (pr_comment_action ts repo pr).statusField = none
        ∧ (pr_comment_action ts repo pr).successField = some "True") := by
  refine ⟨execute_actions_status, ?_, apply_status_update_actions, ?_, ?_⟩
  · intro inc env t
    dsimp only [analyze_and_act]
    split
    · exact ⟨[], by simp [analyzeFail]⟩
    · split
      · exact ⟨[], by simp [analyzeFail]⟩
      · exact ⟨_, rfl⟩
  · intro inc pr env
    dsimp only [add_detailed_pr_comment]
    split
    · exact ⟨[], by simp⟩
    · split
      · exact ⟨_, rfl⟩
      · exact ⟨[], by simp⟩
  · intro ts repo pr
    exact ⟨rfl, rfl⟩

/-- Witness for `claim4_amended`: the Jira action of a concrete
`execute_actions` run has an allowed status. -/
theorem claim4_witness :
    (create_jira_user_story c2inc c4an (JiraApiOutcome.raised "boom")).status ∈
      ["success", "failed", "skipped"] :=
  claim4_amended.1 c2inc c4an c4env
    (create_jira_user_story c2inc c4an (JiraApiOutcome.raised "boom"))
    (by with_unfolding_all decide)

/-- C4, counterexample: `IncidentManager.add_detailed_pr_comment` appends a
plain dict entry to `actions_taken` whose fields are
`type`/`timestamp`/`details`/`success` — it has NO `status` field, so the
claimed "status field is one of success, failed, skipped" is false for this
appended entry. -/
theorem claim4_counterexample :
    (add_detailed_pr_comment c1inc 42 { timestamp := "2025-01-01T00:00:00" }).actions_taken
      = c1inc.actions_taken ++ [pr_comment_action "2025-01-01T00:00:00" "your-repo" 42]
    ∧ (pr_comment_action "2025-01-01T00:00:00" "your-repo" 42).statusField = none
    ∧ (pr_comment_action "2025-01-01T00:00:00" "your-repo" 42).successField
        = some "True" := by
  refine ⟨?_, rfl, rfl⟩
  with_unfolding_all decide

/-! ## Claim C5 -/

/-- A concrete merge environment: remote AI succeeded with a confidence and
some suggestions, engines contribute further confidences and actions. -/
def c5ai : AiResultDict :=
  { confidence := some 0.8, suggested_actions := ["A", "B", "A"] }

def c5env : AAAEnv :=
  { analyzer := { aiRemote := .ok c5ai },
    ml_confidence := some 0.9,
    quantum_confidence := some 0.7,
    ml_recommended_actions := ["B", "C"] }

/-- C5: the ensemble path (`_combine_analyses`) merges the four engines'
confidences with weights 0.4 / 0.25 / 0.2 / 0.15 capped at 0.95 and truncates
the de-duplicated action union to 8; the webhook path (`analyze_and_act`)
averages the AI, ML and quantum confidences (one third each) plus a fixed 0.15
boost capped at 0.98 and truncates the de-duplicated four-engine action union
to 5; the de-duplication keeps first occurrences in order (no duplicates, a
sublist of the input). -/
theorem claim5_merge : ∀ (ai : AiResultDict) (pattern : PatternResult)
    (prediction : PredictionResult) (similarity : SimilarityResult)
    (inc : Incident) (env : AAAEnv) (t : PyDateTime) (l : List String),
    ((combine_analyses ai pattern prediction similarity).confidence =
      min 0.95 (0.4 * ai.confidence.getD 0.5 + 0.25 * pattern.confidence.getD 0.3 +
        0.2 * prediction.confidence.getD 0.6 + 0.15 * similarity.confidence.getD 0.3))
    ∧ ((combine_analyses ai pattern prediction similarity).suggested_actions =
        (dedupFirst (ai.suggested_actions ++ prediction.prevention_suggestions)).take 8)
    ∧ (env.gatherRaises = false → env.execRaises = false →
        (analyze_and_act inc env t).confidence_score =
          some (min 0.98
            (((analyze_incident { inc with status := IncidentStatus.in_progress }
                env.analyzer).confidence +
              env.ml_confidence.getD 0.5 + env.quantum_confidence.getD 0.5) / 3 + 0.15))
        ∧ (analyze_and_act inc env t).suggested_actions =
          (dedupFirst ((analyze_incident { inc with status := IncidentStatus.in_progress }
              env.analyzer).suggested_actions ++
            env.ml_recommended_actions ++ env.copado_optimization_actions ++
            env.quantum_recommendations)).take 5)
    ∧ ((dedupFirst l).Nodup ∧ List.Sublist (dedupFirst l) l) := by
  intro ai pattern prediction similarity inc env t l
  refine ⟨?_, rfl, ?_, dedupFirst_nodup l, dedupFirst_sublist l⟩
  · simp only [combine_analyses]
    congr 1
    ring
  · intro hg he
    constructor
    · simp [analyze_and_act, hg, he]
    · simp [analyze_and_act, hg, he]

/-- Witness for `claim5_merge` at a concrete webhook-path environment. -/
theorem claim5_witness :
    (analyze_and_act c2inc c5env dtB).confidence_score =
      some (min 0.98
        (((analyze_incident { c2inc with status := IncidentStatus.in_progress }
            c5env.analyzer).confidence +
          c5env.ml_confidence.getD 0.5 + c5env.quantum_confidence.getD 0.5) / 3 + 0.15)) :=
  ((claim5_merge {} {} {} {} c2inc c5env dtB []).2.2.1 rfl rfl).1

/-! ## Claim C6 -/

/-- The raw payload of the round-trip scenario: a `timestamp` one level down
under `data`. -/
def c6raw : RawData := [("data", .obj [("timestamp", .s "2024-01-15T10:30:00Z")])]

/-- The timezone-normalised datetime the scenario expects. -/
def c6dt : PyDateTime := ⟨2024, 1, 15, 10, 30, 0, some 0⟩

/-- A payload exercising the field order: `detected_at` (earlier in the list)
must win over `last_success`. -/
def c6rawOrder : RawData :=
  [("last_success", .s "2022-01-01T00:00:00Z"), ("detected_at", .s "2023-05-05T01:02:03Z")]

/-- The datetime carried by the `detected_at` field of `c6rawOrder`. -/
def c6dtOrder : PyDateTime := ⟨2023, 5, 5, 1, 2, 3, some 0⟩

/-- A webhook payload whose `data` key holds a number: the nested timestamp
scan's `field in data` raises an uncaught `TypeError` on it. -/
def c8badPayload : WebhookPayload :=
  { source := "copado", event_type := "deployment_failed",
    data := [("data", RVal.n 5)] }

/-- The (anomalous) signal the detector produces for `c8badPayload`. -/
def c8badSig : Signal := analyze_copado_event c8badPayload

/-- C6, amended: `detected_at` extraction scans the ordered field list
`timestamp`, `detected_at`, `last_success`, `deployment_time` at the top level
of `raw_data` and one level down under `data`, and maps
`data.timestamp = "2024-01-15T10:30:00Z"` to 2024-01-15T10:30:00+00:00 (offset
`+00:00`, i.e. timezone-normalised); it falls back to the wall clock when
nothing parses PROVIDED the nested scan does not raise — a `data` key holding a
non-dict (a scalar, or a string/list containing a field name) raises an
uncaught `TypeError` that aborts incident creation instead of falling back. -/
theorem claim6_detected_at : ∀ (now : PyDateTime) (id : String) (sig : Signal)
    (src : String) (raw : RawData),
    (Except.map Incident.detected_at (create_incident_from_signal id sig src now)
      = extract_detected_at now sig.raw_data)
    ∧ timestamp_fields = ["timestamp", "detected_at", "last_success", "deployment_time"]
    ∧ extract_detected_at now c6raw = .ok c6dt
    ∧ (scanTimestampFields raw timestamp_fields = none → nestedScanE raw = .ok none →
        extract_detected_at now raw = .ok now)
    ∧ extract_detected_at now c6rawOrder = .ok c6dtOrder := by
  intro now id sig src raw
  refine ⟨create_detected_at id sig src now, rfl, ?_, ?_, ?_⟩
  · have h : nestedScanE c6raw = .ok (some c6dt) := by with_unfolding_all rfl
    simp [extract_detected_at, h]
  · intro h1 h2
    simp [extract_detected_at, h1, h2]
  · have h1 : nestedScanE c6rawOrder = .ok none := by with_unfolding_all rfl
    have h2 : scanTimestampFields c6rawOrder timestamp_fields = some c6dtOrder := by
      with_unfolding_all rfl
    simp [extract_detected_at, h1, h2]

/-- Witness for `claim6_detected_at`: an empty payload falls back to the wall
clock. -/
theorem claim6_witness : extract_detected_at dtA [] = .ok dtA :=
  (claim6_detected_at dtA "i" c2sig "git" []).2.2.2.1 rfl rfl

/-- C6, counterexample: on a payload whose `data` key holds the number 5,
nothing parses, yet the extraction does NOT fall back to the wall clock — the
uncaught `TypeError` of `field in data` (main.py:645, outside the `try` that
only catches ValueError/AttributeError) escapes, and `create_incident_from_signal`
produces no incident at all. -/
theorem claim6_counterexample :
    extract_detected_at dtA [("data", RVal.n 5)] = .error ()
    ∧ create_incident_from_signal "n1" c8badSig "copado" dtA = .error () := by
  exact ⟨by with_unfolding_all rfl, by with_unfolding_all rfl⟩

/-! ## Claim C7 -/

/-- A webhook payload outside every allow-list. -/
def c7payload : WebhookPayload :=
  { source := "copado", event_type := "ping", data := [] }

/-- A concrete pipeline environment. -/
def c7env : PipelineEnv :=
  { newId := "n1", now := dtA, aaa := c2env, resolved_time := dtB }

/-- C7: both webhook endpoints answer `{"status": "received"}` on every
payload and every downstream environment (downstream failures are environment
values and cannot change the response); event types outside the fixed
allow-lists (`deployment_failed`/`test_failed`/`build_failed` for Copado,
`push`/`pull_request` for GitHub) leave the incident store untouched. -/
theorem claim7_ingress : ∀ (store : IncidentStore) (payload : WebhookPayload)
    (env : PipelineEnv),
    ((copado_webhook store payload env).2 = { status := "received" })
    ∧ ((github_webhook store payload env).2 = { status := "received" })
    ∧ (payload.event_type ∉ ["deployment_failed", "test_failed", "build_failed"] →
        (copado_webhook store payload env).1 = store)
    ∧ (payload.event_type ∉ ["push", "pull_request"] →
        (github_webhook store payload env).1 = store) := by
  intro store payload env
  refine ⟨?_, ?_, ?_, ?_⟩
  · unfold copado_webhook
    split <;> rfl
  · unfold github_webhook
    split <;> rfl
  · intro h
    simp [copado_webhook, h]
  · intro h
    simp [github_webhook, h]

/-- Witness for `claim7_ingress`: a `ping` event is acknowledged but dropped. -/
theorem claim7_witness : (copado_webhook c1store c7payload c7env).1 = c1store :=
  (claim7_ingress c1store c7payload c7env).2.2.1 (by decide)

/-! ## Claim C8 -/

/-- C8, amended: a non-anomalous signal leaves the store untouched (this half
of the claim holds); but the anomaly flag is NOT the only gate on incident
creation — an anomalous signal creates an incident iff
`create_incident_from_signal` also succeeds, and a malformed `data` value makes
it raise an uncaught `TypeError`, leaving the store untouched despite
`is_anomaly = True` (similarly, a raising `analyze_git_event` drops the git
event before any signal exists). -/
theorem claim8_anomaly_gate : ∀ (store : IncidentStore) (sig : Signal)
    (src : String) (env : PipelineEnv) (payload : WebhookPayload)
    (inc : Incident) (sig2 : Signal),
    (sig.is_anomaly = false → handle_anomalous_signal store sig src env = store)
    ∧ (sig.is_anomaly = true →
        create_incident_from_signal env.newId sig src env.now = .ok inc →
        storeLookup (handle_anomalous_signal store sig src env) env.newId ≠ none
        ∧ (storeLookup store env.newId = none →
            (handle_anomalous_signal store sig src env).length = store.length + 1))
    ∧ (sig.is_anomaly = true →
        create_incident_from_signal env.newId sig src env.now = .error () →
        handle_anomalous_signal store sig src env = store)
    ∧ (analyze_git_event payload = .ok sig2 →
        process_git_event store payload env =
          handle_anomalous_signal store sig2 "git" env)
    ∧ (analyze_git_event payload = .error () →
        process_git_event store payload env = store)
    ∧ (process_copado_event store payload env =
        handle_anomalous_signal store (analyze_copado_event payload) "copado" env) := by
  intro store sig src env payload inc sig2
  refine ⟨?_, ?_, ?_, ?_, ?_, rfl⟩
  · intro h
    simp [handle_anomalous_signal, h]
  · intro h hok
    constructor
    · unfold handle_anomalous_signal
      rw [if_pos h]
      simp only [hok]
      rw [storeLookup_insert_self]
      simp
    · intro hnone
      unfold handle_anomalous_signal
      rw [if_pos h]
      simp only [hok]
      rw [storeInsert_length_old _ _ _ _ (storeLookup_insert_self _ _ _)]
      exact storeInsert_length_new _ _ _ hnone
  · intro h herr
    unfold handle_anomalous_signal
    rw [if_pos h]
    simp only [herr]
  · intro hok
    unfold process_git_event
    rw [hok]
  · intro herr
    unfold process_git_event
    rw [herr]

/-- The incident actually created under the pipeline environment `c7env` from
the well-formed anomalous signal `c1sig`. -/
def c8inc : Incident :=
  incidentOrDummy (create_incident_from_signal "n1" c1sig "copado" dtA)

/-- Witness for `claim8_anomaly_gate`: the concrete anomalous Copado signal
(whose creation succeeds) adds one incident to the empty store. -/
theorem claim8_witness :
    storeLookup (handle_anomalous_signal [] c1sig "copado" c7env) "n1" ≠ none
    ∧ (handle_anomalous_signal [] c1sig "copado" c7env).length = 0 + 1 :=
  ⟨((claim8_anomaly_gate [] c1sig "copado" c7env c7payload c8inc c2sig).2.1 rfl
      (by with_unfolding_all rfl)).1,
   ((claim8_anomaly_gate [] c1sig "copado" c7env c7payload c8inc c2sig).2.1 rfl
      (by with_unfolding_all rfl)).2 rfl⟩

/-- C8, counterexample: the anomalous `deployment_failed` signal carrying
`raw_data = {"data": 5}` creates NO incident — the store stays empty both at
pipeline level and through the `/webhook/copado` endpoint — so the anomaly flag
is not the only gate on incident creation. -/
theorem claim8_counterexample :
    c8badSig.is_anomaly = true
    ∧ handle_anomalous_signal [] c8badSig "copado" c7env = []
    ∧ (copado_webhook [] c8badPayload c7env).1 = [] := by
  refine ⟨rfl, ?_, ?_⟩
  · with_unfolding_all rfl
  · with_unfolding_all rfl

/-! ## Claim C9 -/

/-- C9: on every successful status update, the response's `old_status` equals
the REQUESTED new status (the handler re-reads it after the overwrite), not the
incident's prior status. -/
theorem claim9_old_status : ∀ (store : IncidentStore) (id s : String)
    (now : PyDateTime) (senv : JiraSyncEnv) (p : IncidentStore × StatusResponse),
    update_incident_status store id s now senv = .ok p →
    p.2.old_status = p.2.status
    ∧ (IncidentStatus.ofString s.toLower).map IncidentStatus.value
        = some p.2.old_status := by
  intro store id s now senv p h
  unfold update_incident_status at h
  cases hl : storeLookup store id with
  | none =>
    rw [hl] at h
    exact absurd h (by simp)
  | some incident =>
    rw [hl] at h
    cases hs : IncidentStatus.ofString s.toLower with
    | none =>
      rw [hs] at h
      exact absurd h (by simp)
    | some e =>
      rw [hs] at h
      simp only [Except.ok.injEq] at h
      subst h
      constructor
      · show (apply_status_update incident e now).status.value = e.value
        rw [apply_status_update_status]
      · simp [hs, apply_status_update_status]

/-- The concrete result of resolving `c1inc` through the endpoint. -/
def c9pair : IncidentStore × StatusResponse :=
  match update_incident_status c1store "inc-1" "resolved" dtB {} with
  | .ok p => p
  | .error _ => ([], ⟨"", "", "", false⟩)

/-- Witness for `claim9_old_status`: the incident was `open` before the call,
yet the response reports `old_status = "resolved"`. -/
theorem claim9_witness :
    c9pair.2.old_status = c9pair.2.status
    ∧ c9pair.2.old_status = "resolved"
    ∧ c1inc.status = IncidentStatus.open_ :=
  ⟨(claim9_old_status c1store "inc-1" "resolved" dtB {} c9pair
      (by with_unfolding_all rfl)).1,
   by with_unfolding_all decide,
   by with_unfolding_all decide⟩

/-! ## Claim C10 -/

theorem create_jira_user_story_type (incident : Incident) (analysis : AIAnalysis)
    (outcome : JiraApiOutcome) :
    (create_jira_user_story incident analysis outcome).action_type = "jira_user_story" := by
  cases outcome with
  | raised e => rfl
  | api success k u s p d i =>
    cases success
    · rfl
    · rfl

/-- C10: the Jira ticket-creation step always yields a single
`jira_user_story` action with `status="success"` and a truthy result (on API
failure or exception `_create_jira_user_story` returns the demo action, which
also reports success), so the non-success fallback branch of `execute_actions`
is unreachable and a caller never observes a failed ticket creation. -/
theorem claim10_jira_success : ∀ (inc : Incident) (an : AIAnalysis) (env : ActionEnv),
    ((create_jira_user_story inc an env.jira).status = "success")
    ∧ (resultTruthy (create_jira_user_story inc an env.jira).result = true)
    ∧ ((jira_phase inc an env).1 = [create_jira_user_story inc an env.jira])
    ∧ (((execute_actions inc an env).filter
        (fun a => a.action_type == "jira_user_story")).length = 1)
    ∧ (∀ a ∈ execute_actions inc an env, a.action_type = "jira_user_story" →
        a.status = "success") := by
  intro inc an env
  refine ⟨create_jira_user_story_status inc an env.jira,
    create_jira_user_story_result_truthy inc an env.jira,
    jira_phase_actions inc an env, ?_, ?_⟩
  · simp only [execute_actions, jira_phase_actions]
    rw [List.filter_append, List.filter_append, List.filter_append]
    have h1 : List.filter (fun a => a.action_type == "jira_user_story")
        [create_jira_user_story inc an env.jira] =
        [create_jira_user_story inc an env.jira] := by
      simp [List.filter, create_jira_user_story_type]
    have h2 : List.filter (fun a => a.action_type == "jira_user_story")
        (github_phase inc env) = [] := by
      rw [List.filter_eq_nil_iff]
      intro a ha
      rw [github_phase_type inc env a ha]
      decide
    have h3 : List.filter (fun a => a.action_type == "jira_user_story")
        (slack_phase inc (jira_phase inc an env).2.1 (jira_phase inc an env).2.2 env)
        = [] := by
      rw [List.filter_eq_nil_iff]
      intro a ha
      rw [slack_phase_type inc _ _ env a ha]
      decide
    have h4 : List.filter (fun a => a.action_type == "jira_user_story")
        (rollback_phase inc an env) = [] := by
      rw [List.filter_eq_nil_iff]
      intro a ha
      rw [rollback_phase_type inc an env a ha]
      decide
    rw [h1, h2, h3, h4]
    simp
  · intro a ha hty
    simp only [execute_actions] at ha
    rw [jira_phase_actions] at ha
    rcases List.mem_append.mp ha with h1 | h4
    · rcases List.mem_append.mp h1 with h2 | h3
      · rcases List.mem_append.mp h2 with h5 | h6
        · rcases List.mem_singleton.mp h5 with rfl
          exact create_jira_user_story_status inc an env.jira
        · rw [github_phase_type inc env a h6] at hty
          exact absurd hty (by decide)
      · rw [slack_phase_type inc _ _ env a h3] at hty
        exact absurd hty (by decide)
    · rw [rollback_phase_type inc an env a h4] at hty
      exact absurd hty (by decide)

/-- Witness for `claim10_jira_success`: the Jira action of a concrete run with
a raising Jira API reports success. -/
theorem claim10_witness :
    (create_jira_user_story c2inc c4an c4env.jira).status = "success" :=
  (claim10_jira_success c2inc c4an c4env).2.2.2.2
    (create_jira_user_story c2inc c4an c4env.jira)
    (by with_unfolding_all decide) rfl

end AIObs
